import Mathlib

/-!
Shallow embedding of the order-transaction core of the
`book_recommendation_backend` repository (src/routes/orders.ts, the
notification-enabled variant of the same route file, and the Sequelize
models Book / Cart / Order / OrderItem).

Identifiers (UUIDs in the source) are modelled as `Nat`; DECIMAL money
columns and JS numbers are modelled as `ℚ`; `Math.round` is the JS
rounding (floor of x + 1/2).  Database tables are lists of rows inside a
`State`; each route handler is a function from a `State` to a result,
a post-state and a trace of commit/rollback/notification events.
-/

namespace BookBackend

/-- The `availability` enum of the `books` table (Book.ts). -/
inductive Availability
  | available
  | out_of_stock
  | pre_order
  deriving DecidableEq, Repr

/-- The `status` enum of the `orders` table (Order model). -/
inductive OrderStatus
  | pending
  | confirmed
  | shipped
  | delivered
  | cancelled
  deriving DecidableEq, Repr

/-- A row of the `books` table: the fields the order routes read
(`id`, `title`, nullable `price`, `availability`). -/
structure Book where
  id : Nat
  title : String
  price : Option ℚ
  availability : Availability
  deriving DecidableEq, Repr

/-- A row of the `cart` table (Cart.ts): `(userId, bookId, quantity)`. -/
structure CartLine where
  userId : Nat
  bookId : Nat
  quantity : Nat
  deriving DecidableEq, Repr

/-- A row of the `orders` table: the fields the claims are about. -/
structure Order where
  id : Nat
  userId : Nat
  totalAmount : ℚ
  status : OrderStatus
  deriving DecidableEq, Repr

/-- A row of the `order_items` table (Orderitem.ts). -/
structure OrderItem where
  orderId : Nat
  bookId : Nat
  quantity : Nat
  price : ℚ
  deriving DecidableEq, Repr

/-- The database state the order routes touch, plus a fresh-id counter
standing in for UUID generation. -/
structure State where
  books : List Book
  carts : List CartLine
  orders : List Order
  orderItems : List OrderItem
  nextOrderId : Nat
  deriving DecidableEq, Repr

/-- The error outcomes of the three operations, as classified in the
spec's error taxonomy; `persistence` stands for any storage-layer throw
caught by the handler's catch block (HTTP 500). -/
inductive OrderError
  | emptyCart
  | bookUnavailable (title : String)
  | notFound
  | invalidStateTransition (currentStatus : OrderStatus)
  | persistence
  deriving DecidableEq, Repr

/-- Observable events of one handler run: transaction commit/rollback and
the two notification attempts of `sendOrderNotifications`. -/
inductive Event
  | commit
  | rollback
  | notifyCustomer
  | notifyAdmin
  deriving DecidableEq, Repr

/-- The `include: [{ model: Book, as: "book" }]` join: look a book up by
primary key. -/
def findBook (st : State) (bookId : Nat) : Option Book :=
  st.books.find? (fun b => b.id == bookId)

/-- The lookup `Order.findOne({ where: { id: orderId, userId } })`. -/
def findOrder (st : State) (orderId userId : Nat) : Option Order :=
  st.orders.find? (fun o => o.id == orderId && o.userId == userId)

/-- The `order_items` rows belonging to one order (the `items` include). -/
def orderItemsOf (st : State) (orderId : Nat) : List OrderItem :=
  st.orderItems.filter (fun it => it.orderId == orderId)

/-- The owner's cart lines: `Cart.findAll({ where: { userId } })`. -/
def cartLinesOf (st : State) (userId : Nat) : List CartLine :=
  st.carts.filter (fun c => c.userId == userId)

/-- The JS expression `book.price || 0`: a null price is treated as 0. -/
def priceOrZero (p : Option ℚ) : ℚ :=
  p.getD 0

/-- The JS function `Math.round` on the amounts at hand: `⌊x + 1/2⌋`. -/
def jsRound (q : ℚ) : ℤ :=
  ⌊q + 1 / 2⌋

/-- The expression `Math.round(totalAmount * 100) / 100`: round to 2 decimal places,
half-up at the cent boundary. -/
def round2 (q : ℚ) : ℚ :=
  (jsRound (q * 100) : ℚ) / 100

/-- The data pushed for each order line before persisting
(`orderItemsData.push({ bookId, quantity, price })`). -/
structure OrderItemData where
  bookId : Nat
  quantity : Nat
  price : ℚ
  deriving DecidableEq, Repr

/-- The per-line loop of the notification-enabled `createOrder` (the
updated route file, lines 117–137) over `(bookId, quantity)` pairs:
resolve the joined book (a missing join row makes
`cartItem.book.availability` throw, caught as a persistence failure),
reject the first non-available book with its title, and otherwise
accumulate `quantity × (price || 0)` and push the snapshot line data
with `bookId: book.id` (the UUID itself, as that file declares). -/
def processLines (st : State) : List (Nat × Nat) → Except OrderError (ℚ × List OrderItemData)
  | [] => Except.ok (0, [])
  | (bookId, qty) :: rest =>
    match findBook st bookId with
    | none => Except.error OrderError.persistence
    | some book =>
      if book.availability ≠ Availability.available then
        Except.error (OrderError.bookUnavailable book.title)
      else
        match processLines st rest with
        | Except.error e => Except.error e
        | Except.ok (t, items) =>
          Except.ok ((qty : ℚ) * priceOrZero book.price + t,
            ⟨book.id, qty, priceOrZero book.price⟩ :: items)

/-- The current catalog unit price a line for `bookId` would be given now
(`book.price || 0` of the joined book; 0 also when the join is missing). -/
def currentPrice (st : State) (bookId : Nat) : ℚ :=
  priceOrZero ((findBook st bookId).bind Book.price)

/-- The transaction body of `POST /create` in the notification-enabled
route file (its lines 99–173; orders.ts lines 77–149 are the same logic):
load the owner's cart joined with books, fail on an empty cart, validate
availability and accumulate the total, insert the order (status
"pending", rounded total) and one order item per cart line, delete the
owner's cart lines, commit.  On any failure the transaction rolls back:
the returned state is the entry state. -/
def createOrderTx (st : State) (userId : Nat) : Except OrderError Order × State :=
  let cartItems := cartLinesOf st userId
  if cartItems.isEmpty then
    (Except.error OrderError.emptyCart, st)
  else
    match processLines st (cartItems.map (fun c => (c.bookId, c.quantity))) with
    | Except.error e => (Except.error e, st)
    | Except.ok (totalAmount, itemsData) =>
      let order : Order := ⟨st.nextOrderId, userId, round2 totalAmount, OrderStatus.pending⟩
      let newItems := itemsData.map (fun d => OrderItem.mk order.id d.bookId d.quantity d.price)
      (Except.ok order,
        { books := st.books
          carts := st.carts.filter (fun c => c.userId != userId)
          orders := st.orders ++ [order]
          orderItems := st.orderItems ++ newItems
          nextOrderId := st.nextOrderId + 1 })

/-- The try-block of `sendOrderNotifications`: attempt the customer
confirmation, then (only if it succeeded) the admin notification; the
first failure aborts the block with an error message.  `customerOk` and
`adminOk` say whether the respective email dispatch succeeds. -/
def tryNotifications (customerOk adminOk : Bool) : List Event × Option String :=
  if !customerOk then
    ([Event.notifyCustomer], some "customer notification failed")
  else if !adminOk then
    ([Event.notifyCustomer, Event.notifyAdmin], some "admin notification failed")
  else
    ([Event.notifyCustomer, Event.notifyAdmin], none)

/-- The function `sendOrderNotifications`: the try-block wrapped in a catch that logs
and discards any failure — the function itself never fails, it only
contributes attempted-notification events to the trace. -/
def sendOrderNotifications (customerOk adminOk : Bool) : List Event :=
  (tryNotifications customerOk adminOk).1

/-- The full `POST /create` handler: run the transaction; on success,
after the commit, dispatch the order notifications (whose failure is
swallowed inside `sendOrderNotifications`), on failure roll back. -/
def createOrder (st : State) (userId : Nat) (customerOk adminOk : Bool) :
    Except OrderError Order × State × List Event :=
  match createOrderTx st userId with
  | (Except.error e, st2) => (Except.error e, st2, [Event.rollback])
  | (Except.ok order, st2) =>
    (Except.ok order, st2, Event.commit :: sendOrderNotifications customerOk adminOk)

/-- The handler of `PUT /:orderId/cancel` (orders.ts lines 272–300): load the order
scoped to the owner, 404 when absent, reject any status other than
"pending" carrying the current status, otherwise save status
"cancelled". -/
def cancelOrder (st : State) (userId orderId : Nat) : Except OrderError Order × State :=
  match findOrder st orderId userId with
  | none => (Except.error OrderError.notFound, st)
  | some order =>
    if order.status ≠ OrderStatus.pending then
      (Except.error (OrderError.invalidStateTransition order.status), st)
    else
      let updated : Order := { order with status := OrderStatus.cancelled }
      (Except.ok updated,
        { st with orders := st.orders.map (fun o => if o.id == order.id then updated else o) })

/-- The JS coercion `Number(book.id)` at orders.ts line 446: the book
ids are uuidv4 strings (hex groups joined by hyphens), which are never
numeric, so the coercion yields NaN on every book id; NaN is modelled
as `none`. -/
def numberOfUuid : Nat → Option Nat :=
  fun _ => none

/-- The data pushed for each reorder line (orders.ts lines 445–449):
`bookId: Number(book.id)` — a JS number, NaN (`none`) for the UUID book
ids — with the line's quantity and the current `price || 0`. -/
structure ReorderItemData where
  bookId : Option Nat
  quantity : Nat
  price : ℚ
  deriving DecidableEq, Repr

/-- The per-line loop of `reorder` (orders.ts lines 431–450): the same
availability check and `quantity × (price || 0)` accumulation as the
checkout loop, but the pushed `bookId` is `Number(book.id)`. -/
def reorderLines (st : State) : List (Nat × Nat) → Except OrderError (ℚ × List ReorderItemData)
  | [] => Except.ok (0, [])
  | (bookId, qty) :: rest =>
    match findBook st bookId with
    | none => Except.error OrderError.persistence
    | some book =>
      if book.availability ≠ Availability.available then
        Except.error (OrderError.bookUnavailable book.title)
      else
        match reorderLines st rest with
        | Except.error e => Except.error e
        | Except.ok (t, items) =>
          Except.ok ((qty : ℚ) * priceOrZero book.price + t,
            ⟨numberOfUuid book.id, qty, priceOrZero book.price⟩ :: items)

/-- The `OrderItem.create` calls for the reorder lines (orders.ts lines
466–476): `order_items.bookId` is a `uuid NOT NULL` column
(Orderitem.ts lines 34–39), so the store rejects a NaN `bookId` and the
insert throws, which the handler's catch turns into a rollback. -/
def insertReorderItems (orderId : Nat) : List ReorderItemData → Except OrderError (List OrderItem)
  | [] => Except.ok []
  | d :: rest =>
    match d.bookId with
    | none => Except.error OrderError.persistence
    | some bid =>
      match insertReorderItems orderId rest with
      | Except.error e => Except.error e
      | Except.ok items => Except.ok (OrderItem.mk orderId bid d.quantity d.price :: items)

/-- The handler of `POST /:orderId/reorder` (orders.ts lines 374–505):
load the original order scoped to the owner with its items and books,
404 when absent, re-validate availability and re-price every line from
the current catalog price, insert a new pending order and then its
items, commit.  Because the pushed `bookId` is `Number(book.id)` = NaN,
the item insert throws whenever the original order has at least one
line, and the catch rolls the whole transaction (including the already
inserted order row) back.  The cart is never read or written and no
notification is dispatched. -/
def reorder (st : State) (userId orderId : Nat) :
    Except OrderError Order × State × List Event :=
  match findOrder st orderId userId with
  | none => (Except.error OrderError.notFound, st, [Event.rollback])
  | some _orig =>
    match reorderLines st ((orderItemsOf st orderId).map (fun it => (it.bookId, it.quantity))) with
    | Except.error e => (Except.error e, st, [Event.rollback])
    | Except.ok (totalAmount, itemsData) =>
      let newOrder : Order := ⟨st.nextOrderId, userId, round2 totalAmount, OrderStatus.pending⟩
      match insertReorderItems newOrder.id itemsData with
      | Except.error e => (Except.error e, st, [Event.rollback])
      | Except.ok newItems =>
        (Except.ok newOrder,
          { books := st.books
            carts := st.carts
            orders := st.orders ++ [newOrder]
            orderItems := st.orderItems ++ newItems
            nextOrderId := st.nextOrderId + 1 },
          [Event.commit])

/-- Modelled from the spec: the repository has no catalog price-edit
operation under src/ (books are read-only from the transaction manager's
perspective), but the spec's frozen-snapshot invariant quantifies over
"later catalog price edits".  A price edit updates the `price` column of
the one `books` row with the given id and touches no other table. -/
def updateBookPrice (st : State) (bookId : Nat) (newPrice : Option ℚ) : State :=
  { st with
    books := st.books.map (fun b => if b.id == bookId then { b with price := newPrice } else b) }

/-! ### Concrete states used to exercise the operations -/

/-- The spec's concrete checkout scenario: a cart with book A
(price 12.50, qty 2) and book B (price 7.25, qty 1), both available,
owned by user 7. -/
def demoState : State :=
  { books := [⟨1, "Book A", some (25 / 2), Availability.available⟩,
              ⟨2, "Book B", some (29 / 4), Availability.available⟩]
    carts := [⟨7, 1, 2⟩, ⟨7, 2, 1⟩]
    orders := []
    orderItems := []
    nextOrderId := 0 }

/-- The spec's unavailable-book scenario: book A available (price 10),
book C out of stock (price 5), both in user 7's cart. -/
def demoUnavailable : State :=
  { books := [⟨1, "Book A", some 10, Availability.available⟩,
              ⟨3, "Book C", some 5, Availability.out_of_stock⟩]
    carts := [⟨7, 1, 1⟩, ⟨7, 3, 2⟩]
    orders := []
    orderItems := []
    nextOrderId := 0 }

/-- A state with a pending and a confirmed order owned by user 7, for
exercising `cancelOrder`. -/
def demoCancel : State :=
  { books := []
    carts := []
    orders := [⟨100, 7, 10, OrderStatus.pending⟩,
               ⟨101, 7, 20, OrderStatus.confirmed⟩]
    orderItems := []
    nextOrderId := 300 }

/-- A state with a cancelled order (id 200, owner 7) whose one line was
frozen at price 10 while the book's current catalog price is 15, for
exercising `reorder`; the owner also has a cart line that `reorder` must
leave alone. -/
def demoReorder : State :=
  { books := [⟨1, "Book A", some 15, Availability.available⟩]
    carts := [⟨7, 1, 3⟩]
    orders := [⟨200, 7, 10, OrderStatus.cancelled⟩]
    orderItems := [⟨200, 1, 1, 10⟩]
    nextOrderId := 300 }

/-! ### Helper lemmas -/

/-- A book found by primary key has that primary key. -/
theorem findBook_id (st : State) (bid : Nat) (b : Book)
    (h : findBook st bid = some b) : b.id = bid := by
  unfold findBook at h
  have hb := List.find?_some h
  simpa using hb

/-- When the book is found, the current unit price is its `price || 0`. -/
theorem currentPrice_of_found (st : State) (bid : Nat) (b : Book)
    (h : findBook st bid = some b) : currentPrice st bid = priceOrZero b.price := by
  simp [currentPrice, h]

/-- A successful run of the per-line loop produces exactly one snapshot
line per input pair, priced at the current catalog price, and the exact
(unrounded) sum of `quantity × price` as the total. -/
theorem processLines_ok_eq (st : State) :
    ∀ (pairs : List (Nat × Nat)) (t : ℚ) (items : List OrderItemData),
      processLines st pairs = Except.ok (t, items) →
      items = pairs.map (fun p => ⟨p.1, p.2, currentPrice st p.1⟩) ∧
      t = (pairs.map (fun p => (p.2 : ℚ) * currentPrice st p.1)).sum
  | [], t, items, h => by
    simp only [processLines, Except.ok.injEq, Prod.mk.injEq] at h
    simp [← h.1, ← h.2]
  | (bid, qty) :: rest, t, items, h => by
    simp only [processLines] at h
    cases hb : findBook st bid with
    | none => rw [hb] at h; exact absurd h (by simp)
    | some book =>
      rw [hb] at h
      by_cases ha : book.availability = Availability.available
      · simp only [ha, ne_eq, not_true_eq_false, if_false, ite_false] at h
        cases hr : processLines st rest with
        | error e => rw [hr] at h; exact absurd h (by simp)
        | ok pr =>
          obtain ⟨t2, items2⟩ := pr
          rw [hr] at h
          simp only [Except.ok.injEq, Prod.mk.injEq] at h
          obtain ⟨ht, hitems⟩ := h
          obtain ⟨h1, h2⟩ := processLines_ok_eq st rest t2 items2 hr
          constructor
          · rw [← hitems, h1]

            simp [currentPrice_of_found st bid book hb, findBook_id st bid book hb]
          · rw [← ht, h2]
            simp [currentPrice_of_found st bid book hb]
      · simp [ha] at h

/-- The per-line loop only fails with a persistence failure (missing
join row) or an unavailable book. -/
theorem processLines_error_kind (st : State) :
    ∀ (pairs : List (Nat × Nat)) (e : OrderError),
      processLines st pairs = Except.error e →
      e = OrderError.persistence ∨ ∃ s, e = OrderError.bookUnavailable s
  | [], e, h => by simp [processLines] at h
  | (bid, qty) :: rest, e, h => by
    simp only [processLines] at h
    cases hb : findBook st bid with
    | none => rw [hb] at h; simp at h; exact Or.inl h.symm
    | some book =>
      rw [hb] at h
      by_cases ha : book.availability = Availability.available
      · simp only [ha, ne_eq, not_true_eq_false, ite_false] at h
        cases hr : processLines st rest with
        | error e2 =>
          rw [hr] at h
          simp at h
          exact h ▸ processLines_error_kind st rest e2 hr
        | ok pr => rw [hr] at h; exact absurd h (by simp)
      · simp only [ha, ne_eq, not_false_eq_true, ite_true, Except.error.injEq] at h
        exact Or.inr ⟨book.title, h.symm⟩

/-- When every pair's book is present and some pair's book is not
available, the per-line loop fails with `bookUnavailable` carrying the
title of an offending book. -/
theorem processLines_unavailable (st : State) :
    ∀ (pairs : List (Nat × Nat)),
      (∀ p ∈ pairs, (findBook st p.1).isSome = true) →
      ∀ p0 ∈ pairs, ∀ b0, findBook st p0.1 = some b0 →
      b0.availability ≠ Availability.available →
      ∃ s, processLines st pairs = Except.error (OrderError.bookUnavailable s) ∧
        ∃ p ∈ pairs, ∃ b, findBook st p.1 = some b ∧ b.title = s ∧
          b.availability ≠ Availability.available
  | [], _, p0, hp0, _, _, _ => absurd hp0 (by simp)
  | (bid, qty) :: rest, hall, p0, hp0, b0, hb0, hbad => by
    cases hb : findBook st bid with
    | none =>
      have := hall (bid, qty) (by simp)
      rw [hb] at this
      exact absurd this (by simp)
    | some book =>
      by_cases ha : book.availability = Availability.available
      · have hp0rest : p0 ∈ rest := by
          rcases List.mem_cons.mp hp0 with heq | hmem
          · exfalso
            rw [heq] at hb0
            rw [hb0] at hb
            injection hb with hb
            exact hbad (hb ▸ ha)
          · exact hmem
        obtain ⟨s, hrun, p, hp, b, hfb, htitle, hbav⟩ :=
          processLines_unavailable st rest
            (fun p hp => hall p (List.mem_cons_of_mem _ hp))
            p0 hp0rest b0 hb0 hbad
        refine ⟨s, ?_, p, List.mem_cons_of_mem _ hp, b, hfb, htitle, hbav⟩
        simp [processLines, hb, ha, hrun]
      · refine ⟨book.title, ?_, (bid, qty), by simp, book, hb, rfl, ha⟩
        simp [processLines, hb, ha]

/-- Deleting a user's cart rows leaves that user with no cart rows. -/
theorem filter_user_removed (l : List CartLine) (u : Nat) :
    (l.filter (fun c => c.userId != u)).filter (fun c => c.userId == u) = [] := by
  induction l with
  | nil => rfl
  | cons c t ih =>
    by_cases h : c.userId = u
    · simp [List.filter_cons, h, ih]
    · simp [List.filter_cons, h, ih]

/-- Saving an updated row over the row `find?` located makes `find?`
return the updated row, provided the update still satisfies the
predicate and keeps the primary key. -/
theorem find_update (p : Order → Bool) (updated : Order)
    (hp : p updated = true) :
    ∀ (l : List Order) (o : Order), l.find? p = some o → updated.id = o.id →
      (l.map (fun x => if x.id == o.id then updated else x)).find? p = some updated := by
  intro l
  induction l with
  | nil => intro o h _; simp at h
  | cons a t ih =>
    intro o h hid
    by_cases hpa : p a = true
    · rw [List.find?_cons_of_pos _ hpa] at h
      have hao : a = o := by injection h
      subst hao
      simp [List.map_cons, List.find?_cons_of_pos _ hp]
    · rw [List.find?_cons_of_neg _ (by simpa using hpa)] at h
      by_cases hida : (a.id == o.id) = true
      · have hhead : ((fun x => if x.id == o.id then updated else x) a) = updated := by
          simp [hida]
        simp only [List.map_cons, hhead]
        exact List.find?_cons_of_pos _ hp
      · have : ((fun x => if x.id == o.id then updated else x) a) = a := by
          simp [hida]
        simp only [List.map_cons, this]
        rw [List.find?_cons_of_neg _ (by simpa using hpa)]
        exact ih o h hid

/-- Any failing run of the create-order transaction rolls back: the
post-state is the entry state. -/
theorem createOrderTx_error_state (st : State) (u : Nat) (e : OrderError)
    (h : (createOrderTx st u).1 = Except.error e) :
    (createOrderTx st u).2 = st := by
  by_cases hempty : (cartLinesOf st u).isEmpty
  · simp [createOrderTx, hempty]
  · cases hp : processLines st ((cartLinesOf st u).map (fun c => (c.bookId, c.quantity))) with
    | error e2 => simp [createOrderTx, hempty, hp]
    | ok pr =>
      obtain ⟨t, items⟩ := pr
      simp [createOrderTx, hempty, hp] at h

/-- The create-order transaction reports an empty cart exactly when the
owner has no cart lines at entry. -/
theorem createOrderTx_empty_iff (st : State) (u : Nat) :
    (createOrderTx st u).1 = Except.error OrderError.emptyCart ↔
      cartLinesOf st u = [] := by
  by_cases hempty : (cartLinesOf st u).isEmpty
  · simp [createOrderTx, hempty, List.isEmpty_iff.mp hempty]
  · have hne : ¬ cartLinesOf st u = [] := fun hnil => hempty (by simp [hnil])
    cases hp : processLines st ((cartLinesOf st u).map (fun c => (c.bookId, c.quantity))) with
    | error e2 =>
      have hkind := processLines_error_kind st _ e2 hp
      have : e2 ≠ OrderError.emptyCart := by
        rcases hkind with h | ⟨s, h⟩ <;> simp [h]
      have h1 : (createOrderTx st u).1 = Except.error e2 := by
        simp [createOrderTx, hempty, hp]
      rw [h1]
      exact iff_of_false (fun heq => this (Except.error.inj heq)) hne
    | ok pr =>
      obtain ⟨t, items⟩ := pr
      simp [createOrderTx, hempty, hp, hne]

/-- A successful run of the create-order transaction determines the
created order and the post-state completely: the order is pending with
the rounded cart total, one snapshot line per cart line is appended, and
the owner's cart rows are deleted. -/
theorem createOrderTx_ok_eq (st : State) (u : Nat) (ord : Order)
    (h : (createOrderTx st u).1 = Except.ok ord) :
    ord = ⟨st.nextOrderId, u,
        round2 (((cartLinesOf st u).map
          (fun c => (c.quantity : ℚ) * currentPrice st c.bookId)).sum),
        OrderStatus.pending⟩ ∧
    (createOrderTx st u).2 =
      { books := st.books
        carts := st.carts.filter (fun c => c.userId != u)
        orders := st.orders ++ [ord]
        orderItems := st.orderItems ++ (cartLinesOf st u).map
          (fun c => OrderItem.mk ord.id c.bookId c.quantity (currentPrice st c.bookId))
        nextOrderId := st.nextOrderId + 1 } ∧
    cartLinesOf st u ≠ [] := by
  by_cases hempty : (cartLinesOf st u).isEmpty
  · simp [createOrderTx, hempty] at h
  · have hne : ¬ cartLinesOf st u = [] := fun hnil => hempty (by simp [hnil])
    cases hp : processLines st ((cartLinesOf st u).map (fun c => (c.bookId, c.quantity))) with
    | error e2 => simp [createOrderTx, hempty, hp] at h
    | ok pr =>
      obtain ⟨t, items⟩ := pr
      obtain ⟨hitems, ht⟩ := processLines_ok_eq st _ t items hp
      have hsum : t = ((cartLinesOf st u).map
          (fun c => (c.quantity : ℚ) * currentPrice st c.bookId)).sum := by
        rw [ht, List.map_map]
        rfl
      have hord : ord = ⟨st.nextOrderId, u, round2 t, OrderStatus.pending⟩ := by
        simp [createOrderTx, hempty, hp] at h
        exact h.symm
      have hstate : (createOrderTx st u).2 =
          { books := st.books
            carts := st.carts.filter (fun c => c.userId != u)
            orders := st.orders ++ [⟨st.nextOrderId, u, round2 t, OrderStatus.pending⟩]
            orderItems := st.orderItems ++ items.map
              (fun d => OrderItem.mk st.nextOrderId d.bookId d.quantity d.price)
            nextOrderId := st.nextOrderId + 1 } := by
        simp [createOrderTx, hempty, hp]
      refine ⟨by rw [hord, hsum], ?_, hne⟩
      have hid : ord.id = st.nextOrderId := by rw [hord]
      have hmap2 : items.map (fun d => OrderItem.mk st.nextOrderId d.bookId d.quantity d.price) =
          (cartLinesOf st u).map
            (fun c => OrderItem.mk ord.id c.bookId c.quantity (currentPrice st c.bookId)) := by
        rw [hid, hitems]
        simp only [List.map_map]
        rfl
      rw [hstate, hmap2, ← hord]

/-- Evaluation of the concrete checkout: 2 × 12.50 + 1 × 7.25 = 32.25,
which the rounding leaves unchanged. -/
theorem demoState_create_ok :
    (createOrderTx demoState 7).1 =
      Except.ok (Order.mk 0 7 (129 / 4) OrderStatus.pending) := by
  simp [createOrderTx, demoState, cartLinesOf, processLines, findBook]
  norm_num [round2, jsRound, priceOrZero]

/-! ### The claims -/

/-- C1: for every successful createOrder call the persisted
`Order.totalAmount` equals the sum over the cart lines of
`quantity × (book.price, or 0 when the price is null)`, rounded to two
decimals half-up at the cent boundary, and exactly one order line is
persisted per cart line (the witness runs the claim's concrete cart
[{price 12.50, qty 2}, {price 7.25, qty 1}]: totalAmount 32.25, two
lines). -/
theorem createOrder_total_is_rounded_cart_sum (st : State) (u : Nat) (ord : Order)
    (h : (createOrderTx st u).1 = Except.ok ord) :
    ord.totalAmount =
      round2 (((cartLinesOf st u).map
        (fun c => (c.quantity : ℚ) * currentPrice st c.bookId)).sum) ∧
    (createOrderTx st u).2.orderItems.length =
      st.orderItems.length + (cartLinesOf st u).length := by
  obtain ⟨hord, hstate, -⟩ := createOrderTx_ok_eq st u ord h
  constructor
  · rw [hord]
  · rw [hstate]
    simp

/-- C1 witness: the two-line demo cart checks out at 32.25 = 129/4 with
two persisted order lines. -/
theorem createOrder_total_is_rounded_cart_sum_witness :
    (createOrderTx demoState 7).1 =
      Except.ok (Order.mk 0 7 (129 / 4) OrderStatus.pending) ∧
    (129 / 4 : ℚ) = 32.25 ∧
    (Order.mk 0 7 ((129 : ℚ) / 4) OrderStatus.pending).totalAmount =
      round2 (((cartLinesOf demoState 7).map
        (fun c => (c.quantity : ℚ) * currentPrice demoState c.bookId)).sum) ∧
    (createOrderTx demoState 7).2.orderItems.length = 2 := by
  have h2 := createOrder_total_is_rounded_cart_sum demoState 7 _ demoState_create_ok
  refine ⟨demoState_create_ok, by norm_num, h2.1, ?_⟩
  rw [h2.2]
  decide

/-- C2: a cart containing any book whose availability is not
"available" makes createOrder fail with `BookUnavailableError` carrying
an offending book's title, with the transaction rolled back: the
post-state (orders, order items, cart) is exactly the entry state. -/
theorem createOrder_unavailable_aborts (st : State) (u : Nat)
    (hjoin : ∀ c ∈ cartLinesOf st u, (findBook st c.bookId).isSome = true)
    (hbad : ∃ c ∈ cartLinesOf st u, ∃ b, findBook st c.bookId = some b ∧
      b.availability ≠ Availability.available) :
    ∃ s, (createOrderTx st u).1 = Except.error (OrderError.bookUnavailable s) ∧
      (createOrderTx st u).2 = st ∧
      ∃ c ∈ cartLinesOf st u, ∃ b, findBook st c.bookId = some b ∧
        b.title = s ∧ b.availability ≠ Availability.available := by
  obtain ⟨c0, hc0, b0, hb0, hbad0⟩ := hbad
  have hall : ∀ p ∈ (cartLinesOf st u).map (fun c => (c.bookId, c.quantity)),
      (findBook st p.1).isSome = true := by
    intro p hp
    obtain ⟨c, hc, hcp⟩ := List.mem_map.mp hp
    rw [← hcp]
    exact hjoin c hc
  obtain ⟨s, hrun, p, hp, b, hfb, htitle, hbav⟩ :=
    processLines_unavailable st _ hall (c0.bookId, c0.quantity)
      (List.mem_map_of_mem _ hc0) b0 hb0 hbad0
  have hne : ¬ (cartLinesOf st u).isEmpty := by
    intro hemp
    rw [List.isEmpty_iff.mp hemp] at hc0
    exact absurd hc0 (List.not_mem_nil c0)
  have h1 : (createOrderTx st u).1 = Except.error (OrderError.bookUnavailable s) := by
    simp [createOrderTx, hne, hrun]
  obtain ⟨c1, hc1, hcp⟩ := List.mem_map.mp hp
  have hfb1 : findBook st c1.bookId = some b := by
    have : p.1 = c1.bookId := by rw [← hcp]
    rw [← this]
    exact hfb
  exact ⟨s, h1, createOrderTx_error_state st u _ h1, c1, hc1, b, hfb1, htitle, hbav⟩

/-- C2 witness: with book C out of stock in the cart, createOrder fails
with its title and the post-state is the entry state. -/
theorem createOrder_unavailable_aborts_witness :
    (createOrderTx demoUnavailable 7).1 =
      Except.error (OrderError.bookUnavailable "Book C") ∧
    (createOrderTx demoUnavailable 7).2 = demoUnavailable := by
  obtain ⟨s, h1, h2, -⟩ :=
    createOrder_unavailable_aborts demoUnavailable 7 (by decide)
      ⟨⟨7, 3, 2⟩, by decide,
        ⟨3, "Book C", some 5, Availability.out_of_stock⟩, rfl, by decide⟩
  have hcomp : (createOrderTx demoUnavailable 7).1 =
      Except.error (OrderError.bookUnavailable "Book C") := by
    simp [createOrderTx, demoUnavailable, cartLinesOf, processLines, findBook]
  exact ⟨hcomp, h2⟩

/-- C3: createOrder fails with `EmptyCartError` iff the owner's cart has
no lines at entry (and then nothing is persisted); every successful call
had a non-empty cart before and leaves the owner's cart empty after. -/
theorem createOrder_emptyCart_iff (st : State) (u : Nat) :
    ((createOrderTx st u).1 = Except.error OrderError.emptyCart ↔
      cartLinesOf st u = []) ∧
    ((createOrderTx st u).1 = Except.error OrderError.emptyCart →
      (createOrderTx st u).2 = st) ∧
    (∀ ord, (createOrderTx st u).1 = Except.ok ord →
      cartLinesOf st u ≠ [] ∧ cartLinesOf ((createOrderTx st u).2) u = []) := by
  refine ⟨createOrderTx_empty_iff st u,
    fun h => createOrderTx_error_state st u _ h, ?_⟩
  intro ord hord
  obtain ⟨-, hstate, hne⟩ := createOrderTx_ok_eq st u ord hord
  refine ⟨hne, ?_⟩
  rw [hstate]
  exact filter_user_removed st.carts u

/-- C3 witness: user 8 has no cart lines in the demo state, so checkout
reports the empty cart and persists nothing. -/
theorem createOrder_emptyCart_iff_witness :
    (createOrderTx demoState 8).1 = Except.error OrderError.emptyCart ∧
    (createOrderTx demoState 8).2 = demoState := by
  have h := createOrder_emptyCart_iff demoState 8
  have hnil : cartLinesOf demoState 8 = [] := by decide
  have h1 := h.1.mpr hnil
  exact ⟨h1, h.2.1 h1⟩

/-- C9: a second checkout by the same owner, started after a first
checkout committed with no intervening cart additions, finds the cart
empty and fails with `EmptyCartError` instead of duplicating the
order. -/
theorem createOrder_no_double_spend (st : State) (u : Nat) (ord : Order)
    (h : (createOrderTx st u).1 = Except.ok ord) :
    (createOrderTx ((createOrderTx st u).2) u).1 =
      Except.error OrderError.emptyCart := by
  obtain ⟨-, hstate, -⟩ := createOrderTx_ok_eq st u ord h
  have hempty : cartLinesOf ((createOrderTx st u).2) u = [] := by
    rw [hstate]
    exact filter_user_removed st.carts u
  exact (createOrderTx_empty_iff _ u).mpr hempty

/-- C9 witness: re-running the demo checkout right after it succeeded
fails with the empty cart. -/
theorem createOrder_no_double_spend_witness :
    (createOrderTx ((createOrderTx demoState 7).2) 7).1 =
      Except.error OrderError.emptyCart :=
  createOrder_no_double_spend demoState 7 _ demoState_create_ok

/-- C4: cancelOrder fails with `NotFoundError` when no order with that
id is owned by the caller; fails with `InvalidStateTransitionError`
carrying the current status for any status other than "pending",
leaving the state untouched; and on a "pending" order succeeds with
status "cancelled", after which a second cancel fails with
`InvalidStateTransitionError`. -/
theorem cancelOrder_spec (st : State) (u oid : Nat) :
    (findOrder st oid u = none →
      cancelOrder st u oid = (Except.error OrderError.notFound, st)) ∧
    (∀ o, findOrder st oid u = some o → o.status ≠ OrderStatus.pending →
      cancelOrder st u oid =
        (Except.error (OrderError.invalidStateTransition o.status), st)) ∧
    (∀ o, findOrder st oid u = some o → o.status = OrderStatus.pending →
      (cancelOrder st u oid).1 =
        Except.ok { o with status := OrderStatus.cancelled } ∧
      findOrder ((cancelOrder st u oid).2) oid u =
        some { o with status := OrderStatus.cancelled } ∧
      (cancelOrder ((cancelOrder st u oid).2) u oid).1 =
        Except.error (OrderError.invalidStateTransition OrderStatus.cancelled)) := by
  refine ⟨?_, ?_, ?_⟩
  · intro hf
    simp [cancelOrder, hf]
  · intro o hf hs
    simp [cancelOrder, hf, hs]
  · intro o hf hs
    have h1 : (cancelOrder st u oid).1 =
        Except.ok { o with status := OrderStatus.cancelled } := by
      simp [cancelOrder, hf, hs]
    have hst2 : (cancelOrder st u oid).2 =
        { st with orders := st.orders.map (fun x =>
            if x.id == o.id then { o with status := OrderStatus.cancelled } else x) } := by
      simp [cancelOrder, hf, hs]
    have hp : (fun x : Order => x.id == oid && x.userId == u)
        { o with status := OrderStatus.cancelled } = true := by
      have ho := List.find?_some (show st.orders.find?
        (fun x => x.id == oid && x.userId == u) = some o from hf)
      simpa using (by simpa using ho : o.id = oid ∧ o.userId = u)
    have hfind : findOrder ((cancelOrder st u oid).2) oid u =
        some { o with status := OrderStatus.cancelled } := by
      rw [hst2]
      exact find_update _ _ hp st.orders o hf rfl
    refine ⟨h1, hfind, ?_⟩
    generalize hgen : (cancelOrder st u oid).2 = st2 at hfind
    simp [cancelOrder, hfind]

/-- C4 witness: in the demo state, cancelling the pending order 100
succeeds and a repeat cancel is rejected; the confirmed order 101 and a
missing order 999 are rejected as the claim states. -/
theorem cancelOrder_spec_witness :
    (cancelOrder demoCancel 7 100).1 =
      Except.ok (Order.mk 100 7 10 OrderStatus.cancelled) ∧
    (cancelOrder ((cancelOrder demoCancel 7 100).2) 7 100).1 =
      Except.error (OrderError.invalidStateTransition OrderStatus.cancelled) ∧
    cancelOrder demoCancel 7 101 =
      (Except.error (OrderError.invalidStateTransition OrderStatus.confirmed), demoCancel) ∧
    cancelOrder demoCancel 7 999 =
      (Except.error OrderError.notFound, demoCancel) := by
  have h := cancelOrder_spec demoCancel 7 100
  obtain ⟨h1, -, h2⟩ := h.2.2 (Order.mk 100 7 10 OrderStatus.pending) rfl rfl
  have h3 := (cancelOrder_spec demoCancel 7 101).2.1
    (Order.mk 101 7 20 OrderStatus.confirmed) rfl (by decide)
  have h4 := (cancelOrder_spec demoCancel 7 999).1 rfl
  exact ⟨h1, h2, h3, h4⟩

/-- C6: the notifier is invoked only after the commit (the trace of any
run containing a notification attempt begins with the commit), the
customer confirmation is always attempted on success (and the admin
notification whenever the customer send succeeded), and a notification
failure is swallowed: the reported result and the committed state are
identical to the bare transaction's, whatever the notifier outcomes, so
the failure never surfaces as any error kind and never rolls back. -/
theorem createOrder_notifications_isolated (st : State) (u : Nat)
    (customerOk adminOk : Bool) :
    (createOrder st u customerOk adminOk).1 = (createOrderTx st u).1 ∧
    (createOrder st u customerOk adminOk).2.1 = (createOrderTx st u).2 ∧
    ((Event.notifyCustomer ∈ (createOrder st u customerOk adminOk).2.2 ∨
      Event.notifyAdmin ∈ (createOrder st u customerOk adminOk).2.2) →
      (createOrder st u customerOk adminOk).2.2.head? = some Event.commit) ∧
    (∀ ord, (createOrderTx st u).1 = Except.ok ord →
      (createOrder st u customerOk adminOk).2.2 =
        Event.commit :: sendOrderNotifications customerOk adminOk ∧
      Event.notifyCustomer ∈ sendOrderNotifications customerOk adminOk ∧
      (customerOk = true →
        Event.notifyAdmin ∈ sendOrderNotifications customerOk adminOk)) ∧
    (∀ e, (createOrderTx st u).1 = Except.error e →
      (createOrder st u customerOk adminOk).2.2 = [Event.rollback]) := by
  cases htx : createOrderTx st u with
  | mk r st2 =>
    cases r with
    | error e =>
      refine ⟨by simp [createOrder, htx], by simp [createOrder, htx], ?_, ?_, ?_⟩
      · intro hmem
        exfalso
        simp [createOrder, htx] at hmem
      · intro ord hord
        simp at hord
      · intro e2 h2
        simp [createOrder, htx]
    | ok order =>
      refine ⟨by simp [createOrder, htx], by simp [createOrder, htx], ?_, ?_, ?_⟩
      · intro hmem
        simp [createOrder, htx]
      · intro ord hord
        refine ⟨by simp [createOrder, htx], ?_, ?_⟩
        · cases customerOk <;> cases adminOk <;> decide
        · intro hc
          subst hc
          cases adminOk <;> decide
      · intro e2 h2
        simp at h2

/-- C6 witness: with both notification sends failing, the demo checkout
still reports the created order, and the trace shows the attempt after
the commit. -/
theorem createOrder_notifications_isolated_witness :
    (createOrder demoState 7 false false).1 =
      Except.ok (Order.mk 0 7 (129 / 4) OrderStatus.pending) ∧
    (createOrder demoState 7 false false).2.2 =
      [Event.commit, Event.notifyCustomer] := by
  have h := createOrder_notifications_isolated demoState 7 false false
  constructor
  · rw [h.1, demoState_create_ok]
  · rw [(h.2.2.2.1 _ demoState_create_ok).1]
    rfl

/-- C7: createOrder copies the numeric value of the book's current
price into each order line, and a later catalog price edit (which only
rewrites the `books` table) leaves every existing order line and every
existing order — hence its totalAmount — unchanged. -/
theorem orderLine_price_frozen (st : State) (u : Nat) (ord : Order)
    (h : (createOrderTx st u).1 = Except.ok ord) :
    (createOrderTx st u).2.orderItems =
      st.orderItems ++ (cartLinesOf st u).map
        (fun c => OrderItem.mk ord.id c.bookId c.quantity (currentPrice st c.bookId)) ∧
    ∀ (st2 : State) (bid : Nat) (p : Option ℚ),
      (updateBookPrice st2 bid p).orderItems = st2.orderItems ∧
      (updateBookPrice st2 bid p).orders = st2.orders := by
  obtain ⟨-, hstate, -⟩ := createOrderTx_ok_eq st u ord h
  exact ⟨by rw [hstate], fun st2 bid p => ⟨rfl, rfl⟩⟩

/-- C7 witness: the demo checkout freezes prices 12.50 and 7.25 into
its two lines, and repricing book 1 to 999 afterwards leaves them. -/
theorem orderLine_price_frozen_witness :
    (createOrderTx demoState 7).2.orderItems =
      [OrderItem.mk 0 1 2 (25 / 2), OrderItem.mk 0 2 1 (29 / 4)] ∧
    (updateBookPrice ((createOrderTx demoState 7).2) 1 (some 999)).orderItems =
      ((createOrderTx demoState 7).2).orderItems := by
  have h := orderLine_price_frozen demoState 7 _ demoState_create_ok
  constructor
  · rw [h.1]
    rfl
  · exact (h.2 _ 1 (some 999)).1

/-- Every line datum the reorder loop pushes carries the NaN bookId,
and one datum is pushed per input pair. -/
theorem reorderLines_bookId_none (st : State) :
    ∀ (pairs : List (Nat × Nat)) (t : ℚ) (items : List ReorderItemData),
      reorderLines st pairs = Except.ok (t, items) →
      items.length = pairs.length ∧ ∀ d ∈ items, d.bookId = none
  | [], t, items, h => by
    simp only [reorderLines, Except.ok.injEq, Prod.mk.injEq] at h
    simp [← h.2]
  | (bid, qty) :: rest, t, items, h => by
    simp only [reorderLines] at h
    cases hb : findBook st bid with
    | none => rw [hb] at h; exact absurd h (by simp)
    | some book =>
      rw [hb] at h
      by_cases ha : book.availability = Availability.available
      · simp only [ha, ne_eq, not_true_eq_false, ite_false] at h
        cases hr : reorderLines st rest with
        | error e => rw [hr] at h; exact absurd h (by simp)
        | ok pr =>
          obtain ⟨t2, items2⟩ := pr
          rw [hr] at h
          simp only [Except.ok.injEq, Prod.mk.injEq] at h
          obtain ⟨ht, hitems⟩ := h
          obtain ⟨hlen, hall⟩ := reorderLines_bookId_none st rest t2 items2 hr
          constructor
          · rw [← hitems]
            simp [hlen]
          · intro d hd
            rw [← hitems] at hd
            rcases List.mem_cons.mp hd with hhead | hmem
            · rw [hhead]
              rfl
            · exact hall d hmem
      · simp [ha] at h

/-- The item insert throws on any non-empty list of reorder line data
whose head carries the NaN bookId. -/
theorem insertReorderItems_fails (oid : Nat) (d : ReorderItemData)
    (rest : List ReorderItemData) (hd : d.bookId = none) :
    insertReorderItems oid (d :: rest) = Except.error OrderError.persistence := by
  simp [insertReorderItems, hd]

/-- No reorder of an order that has at least one line ever succeeds:
the NaN bookId makes the item insert fail and the transaction roll
back. -/
theorem reorder_never_ok (st : State) (u oid : Nat)
    (hne : orderItemsOf st oid ≠ []) (ord : Order) :
    (reorder st u oid).1 ≠ Except.ok ord := by
  intro h
  cases hf : findOrder st oid u with
  | none => simp [reorder, hf] at h
  | some orig =>
    cases hp : reorderLines st ((orderItemsOf st oid).map (fun it => (it.bookId, it.quantity))) with
    | error e => simp [reorder, hf, hp] at h
    | ok pr =>
      obtain ⟨t, items⟩ := pr
      obtain ⟨hlen, hall⟩ := reorderLines_bookId_none st _ t items hp
      cases items with
      | nil =>
        rw [List.length_nil, List.length_map] at hlen
        exact hne (List.length_eq_zero.mp hlen.symm)
      | cons d rest =>
        have hins := insertReorderItems_fails st.nextOrderId d rest (hall d (by simp))
        simp [reorder, hf, hp, hins] at h

/-- C5: evaluating the program at the claim's own scenario — an owned
order whose line was frozen at price 10 while the book's current
catalog price is 15 — the reorder does not succeed with a $15-repriced
line: the NaN bookId (`Number` of a UUID) makes the item insert fail,
the transaction rolls back, and no new line exists at any price. -/
theorem reorder_repricing_unreachable :
    (reorder demoReorder 7 200).1 = Except.error OrderError.persistence ∧
    (reorder demoReorder 7 200).2.1 = demoReorder ∧
    currentPrice demoReorder 1 = 15 := by
  refine ⟨?_, ?_, rfl⟩ <;>
    simp [reorder, demoReorder, findOrder, orderItemsOf, reorderLines, findBook,
      insertReorderItems, numberOfUuid]

/-- C8: at the concrete reorder, the owner's cart is untouched and no
notification event occurs — but no new Order or OrderLine row survives
either: the NaN bookId insert fails and the transaction rolls back, so
the orders and order_items tables are exactly the entry tables. -/
theorem reorder_creates_no_rows :
    (reorder demoReorder 7 200).2.1.carts = demoReorder.carts ∧
    Event.notifyCustomer ∉ (reorder demoReorder 7 200).2.2 ∧
    Event.notifyAdmin ∉ (reorder demoReorder 7 200).2.2 ∧
    (reorder demoReorder 7 200).2.1.orders = demoReorder.orders ∧
    (reorder demoReorder 7 200).2.1.orderItems = demoReorder.orderItems ∧
    (reorder demoReorder 7 200).2.2 = [Event.rollback] := by
  refine ⟨?_, ?_, ?_, ?_, ?_, ?_⟩ <;>
    simp [reorder, demoReorder, findOrder, orderItemsOf, reorderLines, findBook,
      insertReorderItems, numberOfUuid]

/-- C10: order 200 is owned by user 7 with status "cancelled", its only
line's book is present and available, yet the reorder fails with the
storage error from the NaN bookId insert — neither success nor one of
the claimed NotFound/BookUnavailable outcomes. -/
theorem reorder_cancelled_still_fails :
    findOrder demoReorder 200 7 = some (Order.mk 200 7 10 OrderStatus.cancelled) ∧
    orderItemsOf demoReorder 200 = [OrderItem.mk 200 1 1 10] ∧
    findBook demoReorder 1 = some (Book.mk 1 "Book A" (some 15) Availability.available) ∧
    (reorder demoReorder 7 200).1 = Except.error OrderError.persistence := by
  refine ⟨rfl, rfl, rfl, ?_⟩
  simp [reorder, demoReorder, findOrder, orderItemsOf, reorderLines, findBook,
    insertReorderItems, numberOfUuid]

end BookBackend
